import Mathlib

/-!
Shallow embedding of the reconciliation core of the terraform-provider-langfuse
repository: the organization-membership, project and organization resource
adapters (internal/provider) and the organization HTTP client helpers
(internal/langfuse). Remote calls are modelled by explicit response oracles,
and every adapter operation returns the diagnostics it emitted, the state it
stored (if any) and the trace of remote calls it made, mirroring the Go
control flow statement by statement.
-/

/-! ## String helpers mirroring Go's strings package -/

/-- Mirrors the prefix test used by Go's strings.Contains, on character lists. -/
def listHasPrefixChars : List Char → List Char → Bool
  | _, [] => true
  | [], _ :: _ => false
  | a :: as, b :: bs => a == b && listHasPrefixChars as bs

/-- Mirrors Go's strings.Contains on character lists: some suffix of the
haystack starts with the needle. -/
def listContainsSub : List Char → List Char → Bool
  | [], needle => listHasPrefixChars [] needle
  | a :: t, needle => listHasPrefixChars (a :: t) needle || listContainsSub t needle

/-- Go strings.Contains(hay, needle). -/
def containsSubstring (hay needle : String) : Bool :=
  listContainsSub hay.toList needle.toList

/-- Go strings.ToLower (ASCII-faithful). -/
def strToLower (s : String) : String :=
  String.mk (s.toList.map Char.toLower)

/-- Helper for Go strings.Split with separator ",": accumulates the current
field (reversed) and emits a field at each comma. -/
def splitCommaAux : List Char → List Char → List String
  | [], acc => [String.mk acc.reverse]
  | c :: rest, acc =>
    if c == ',' then String.mk acc.reverse :: splitCommaAux rest []
    else splitCommaAux rest (c :: acc)

/-- Go strings.Split(s, ","): in particular the empty string yields [""] and
n commas yield n+1 fields. -/
def goSplitComma (s : String) : List String :=
  splitCommaAux s.toList []

/-! ## Remote entity types (internal/langfuse, src/unnamed/part_001) -/

structure OrganizationMembership where
  id : String
  email : String
  role : String
  status : String
  userID : String
  username : String
deriving Repr, DecidableEq

structure SCIMUserRequest where
  userName : String
  emails : List (String × Bool)
  password : String
  active : Bool
deriving Repr, DecidableEq

structure SCIMUserResponse where
  id : String
  userName : String
  emails : List (String × Bool)
  active : Bool
deriving Repr, DecidableEq

structure UpdateMembershipRequest where
  userID : String
  email : String
  role : String
deriving Repr, DecidableEq

structure RemoveMemberResponse where
  success : Bool
  message : String
deriving Repr, DecidableEq

structure Project where
  id : String
  name : String
  retentionDays : Int
  metadata : List (String × String)
deriving Repr, DecidableEq

/-! ## Diagnostics and durable records (terraform plugin framework surface) -/

inductive Severity where
  | error
  | warning
deriving Repr, DecidableEq

structure Diag where
  severity : Severity
  summary : String
  detail : String
deriving Repr, DecidableEq

/-- Durable record of langfuse_organization_membership
(organizationMembershipResourceModel). -/
structure MembershipModel where
  id : String
  email : String
  role : String
  status : String
  userID : String
  username : String
  orgPublicKey : String
  orgPrivateKey : String
deriving Repr, DecidableEq

/-- Durable record of langfuse_project (projectResourceModel); metadata none
models types.MapNull. -/
structure ProjectModel where
  id : String
  name : String
  retentionDays : Int
  metadata : Option (List (String × String))
  organizationID : String
  orgPublicKey : String
  orgPrivateKey : String
deriving Repr, DecidableEq

/-- Durable record of langfuse_organization (organizationResourceModel). -/
structure OrganizationModel where
  id : String
  name : String
  metadata : Option (List (String × String))
deriving Repr, DecidableEq

/-! ## The organization client oracle (OrganizationClient interface) -/

/-- One remote call made by the membership adapter, as recorded in the trace. -/
inductive ApiCall where
  | listMemberships
  | createSCIMUser (req : SCIMUserRequest)
  | updateMembership (membershipID : String) (req : UpdateMembershipRequest)
  | getMembership (membershipID : String)
  | removeMember (userID : String)
deriving Repr, DecidableEq

/-- Response oracle for the OrganizationClient interface methods used by the
membership resource. listMemberships is indexed by how many list calls were
made before, since Create may list twice and the remote may change between. -/
structure OrgClient where
  listMemberships : Nat → Except String (List OrganizationMembership)
  createSCIMUser : SCIMUserRequest → Except String SCIMUserResponse
  updateMembership : String → UpdateMembershipRequest → Except String OrganizationMembership
  getMembership : String → Except String OrganizationMembership
  removeMember : String → Except String Unit

def isSCIMCall : ApiCall → Bool
  | .createSCIMUser _ => true
  | _ => false

def isUpdateCall : ApiCall → Bool
  | .updateMembership _ _ => true
  | _ => false

/-! ## Membership resource adapter (organization_membership_resource.go) -/

/-- validRoles from Create/Update. -/
def validRoles : List String := ["OWNER", "ADMIN", "MEMBER", "VIEWER"]

/-- The Invalid Role diagnostic, with strings.Join(validRoles, ", "). -/
def roleDiag (role : String) : Diag :=
  ⟨Severity.error, "Invalid Role",
    "Role must be one of: " ++ String.intercalate ", " validRoles ++ ". Got: " ++ role⟩

/-- The SCIMUserRequest built in Create: username = email, active, one primary
email; password left at its zero value. -/
def scimRequestFor (email : String) : SCIMUserRequest :=
  { userName := email, emails := [(email, true)], password := "", active := true }

/-- The role-only UpdateMembershipRequest built in Update (no userId, no
email supplied by the adapter). -/
def membershipUpdateRequest (role : String) : UpdateMembershipRequest :=
  { userID := "", email := "", role := role }

structure CreateOutcome where
  diags : List Diag
  state : Option MembershipModel
  calls : List ApiCall
deriving Repr, DecidableEq

/-- organizationMembershipResource.Create. -/
def membershipCreate (plan : MembershipModel) (client : OrgClient) : CreateOutcome :=
  let role := plan.role
  if !(validRoles.contains role) then
    { diags := [roleDiag role], state := none, calls := [] }
  else
    let email := plan.email
    match client.listMemberships 0 with
    | .error e =>
        { diags := [⟨Severity.error, "Error listing current memberships", e⟩],
          state := none, calls := [.listMemberships] }
    | .ok memberships =>
      match memberships.find? (fun m => m.email == email) with
      | none =>
          let scimReq := scimRequestFor email
          match client.createSCIMUser scimReq with
          | .error e =>
              { diags := [⟨Severity.error, "Error creating user via SCIM",
                  "Failed to create user with email " ++ email ++ ": " ++ e ++
                    ". User may already exist in Langfuse system."⟩],
                state := none, calls := [.listMemberships, .createSCIMUser scimReq] }
          | .ok scimUser =>
            match client.listMemberships 1 with
            | .error e =>
                { diags := [⟨Severity.error,
                    "Error listing memberships after SCIM user creation", e⟩],
                  state := none,
                  calls := [.listMemberships, .createSCIMUser scimReq, .listMemberships] }
            | .ok memberships2 =>
              match memberships2.find? (fun m => m.userID == scimUser.id) with
              | none =>
                  { diags := [⟨Severity.error, "Error finding new membership",
                      "User was created via SCIM but membership not found in organization. UserID: " ++
                        scimUser.id⟩],
                    state := none,
                    calls := [.listMemberships, .createSCIMUser scimReq, .listMemberships] }
              | some newMembership =>
                let updateReq : UpdateMembershipRequest :=
                  { userID := scimUser.id, email := "", role := role }
                match client.updateMembership newMembership.id updateReq with
                | .error e =>
                    { diags := [⟨Severity.error, "Error updating membership role", e⟩],
                      state := none,
                      calls := [.listMemberships, .createSCIMUser scimReq, .listMemberships,
                        .updateMembership newMembership.id updateReq] }
                | .ok membership =>
                  let membershipID :=
                    if membership.id == "" then membership.userID else membership.id
                  { diags := [],
                    state := some { plan with
                      id := membershipID, email := membership.email, role := membership.role,
                      status := membership.status, userID := membership.userID,
                      username := membership.username },
                    calls := [.listMemberships, .createSCIMUser scimReq, .listMemberships,
                      .updateMembership newMembership.id updateReq] }
      | some existingMembership =>
        let updateReq : UpdateMembershipRequest :=
          { userID := existingMembership.userID, email := "", role := role }
        match client.updateMembership existingMembership.id updateReq with
        | .error e =>
            { diags := [⟨Severity.error, "Error updating membership role", e⟩],
              state := none,
              calls := [.listMemberships, .updateMembership existingMembership.id updateReq] }
        | .ok membership =>
          let membershipID :=
            if membership.id == "" then membership.userID else membership.id
          { diags := [],
            state := some { plan with
              id := membershipID, email := membership.email, role := membership.role,
              status := membership.status, userID := membership.userID,
              username := membership.username },
            calls := [.listMemberships, .updateMembership existingMembership.id updateReq] }

structure ReadOutcome where
  diags : List Diag
  state : Option MembershipModel
  removed : Bool
  calls : List ApiCall
deriving Repr, DecidableEq

/-- organizationMembershipResource.Read. -/
def membershipRead (state0 : MembershipModel) (client : OrgClient) : ReadOutcome :=
  match client.getMembership state0.id with
  | .error e =>
    if containsSubstring e "cannot find membership" then
      { diags := [], state := none, removed := true, calls := [.getMembership state0.id] }
    else
      { diags := [⟨Severity.error, "Error reading membership", e⟩],
        state := none, removed := false, calls := [.getMembership state0.id] }
  | .ok membership =>
    let newID := if membership.id != "" then membership.id else membership.userID
    { diags := [],
      state := some { state0 with
        id := newID, email := membership.email, role := membership.role,
        status := membership.status, userID := membership.userID,
        username := membership.username },
      removed := false, calls := [.getMembership state0.id] }

/-- organizationMembershipResource.Update. -/
def membershipUpdate (plan state0 : MembershipModel) (client : OrgClient) : CreateOutcome :=
  let role := plan.role
  if !(validRoles.contains role) then
    { diags := [roleDiag role], state := none, calls := [] }
  else
    let updateReq := membershipUpdateRequest role
    match client.updateMembership state0.id updateReq with
    | .error e =>
        { diags := [⟨Severity.error, "Error updating membership", e⟩],
          state := none, calls := [.updateMembership state0.id updateReq] }
    | .ok membership =>
      let membershipID :=
        if membership.id == "" then membership.userID else membership.id
      { diags := [],
        state := some { plan with
          id := membershipID, email := membership.email, role := membership.role,
          status := membership.status, userID := membership.userID,
          username := membership.username },
        calls := [.updateMembership state0.id updateReq] }

/-! ## Organization client method bodies (organizationClientImpl, part_001) -/

/-- organizationClientImpl.GetMembership, given the decoded membership list:
first entry matching on ID or UserID, else a "cannot find membership" error. -/
def clientGetMembershipFrom (memberships : List OrganizationMembership)
    (membershipID : String) : Except String OrganizationMembership :=
  match memberships.find? (fun m => m.id == membershipID || m.userID == membershipID) with
  | some m => Except.ok m
  | none => Except.error ("cannot find membership with ID " ++ membershipID)

/-- organizationClientImpl.UpdateMembership. listResp is the decoded result of
the ListMemberships call made inside GetMembership; putResp is the remote's
response to the PUT, as a function of the wire request actually sent. Returns
the method result together with the wire request sent (none if the PUT was
never issued). -/
def clientUpdateMembership (listResp : Except String (List OrganizationMembership))
    (putResp : UpdateMembershipRequest → Except String OrganizationMembership)
    (membershipID : String) (request : UpdateMembershipRequest) :
    Except String OrganizationMembership × Option UpdateMembershipRequest :=
  let current :=
    match listResp with
    | .error e => Except.error e
    | .ok ms => clientGetMembershipFrom ms membershipID
  match current with
  | .error e => (Except.error ("failed to get current membership: " ++ e), none)
  | .ok currentMembership =>
    let userIDToUpdate :=
      if request.userID == "" then currentMembership.userID else request.userID
    let updateRequest : UpdateMembershipRequest :=
      { userID := userIDToUpdate, email := "", role := request.role }
    match putResp updateRequest with
    | .error e => (Except.error ("failed to update membership: " ++ e), some updateRequest)
    | .ok updatedMembership =>
      let result :=
        if updatedMembership.id == "" then { updatedMembership with id := membershipID }
        else updatedMembership
      (Except.ok result, some updateRequest)

/-- organizationClientImpl.RemoveMember, given the decoded response envelope. -/
def clientRemoveMember (membershipID : String) (resp : RemoveMemberResponse) :
    Except String Unit :=
  if !resp.success && !(containsSubstring (strToLower resp.message) "deleted") &&
      !(containsSubstring (strToLower resp.message) "removed") then
    Except.error ("failed to remove member with ID " ++ membershipID ++ ": " ++ resp.message)
  else
    Except.ok ()

/-- organizationClientImpl.GetProject, given the decoded organization project
list: first entry with matching ID, else a "cannot find project" error. -/
def clientGetProject (projects : List Project) (projectID : String) :
    Except String Project :=
  match projects.find? (fun p => p.id == projectID) with
  | some p => Except.ok p
  | none => Except.error ("cannot find project with ID " ++ projectID)

/-! ## Project resource adapter (projectResource, part_003) -/

/-- A project remote read, as called through the client factory: arguments are
the organization public key, private key and project ID. -/
def ProjectReadOracle : Type :=
  String → String → String → Except String Project

structure ProjReadOutcome where
  diags : List Diag
  state : Option ProjectModel
  removed : Bool
  calls : List (String × String × String)
deriving Repr, DecidableEq

/-- projectResource.Read: builds a client from the stored credentials, calls
GetProject, and on success re-emits the stored retention_days (write-only in
the remote API). Any error, including not-found, is surfaced as a hard error. -/
def projectRead (data : ProjectModel) (getProjectAt : ProjectReadOracle) :
    ProjReadOutcome :=
  match getProjectAt data.orgPublicKey data.orgPrivateKey data.id with
  | .error e =>
      { diags := [⟨Severity.error, "Error reading project", e⟩],
        state := none, removed := false,
        calls := [(data.orgPublicKey, data.orgPrivateKey, data.id)] }
  | .ok project =>
    let metadataMap := if project.metadata.length > 0 then some project.metadata else none
    { diags := [],
      state := some
        { id := project.id, name := project.name,
          retentionDays := data.retentionDays, metadata := metadataMap,
          organizationID := data.organizationID,
          orgPublicKey := data.orgPublicKey, orgPrivateKey := data.orgPrivateKey },
      removed := false,
      calls := [(data.orgPublicKey, data.orgPrivateKey, data.id)] }

structure ImportOutcome where
  diags : List Diag
  state : Option ProjectModel
  importedID : Option String
  calls : List (String × String × String)
deriving Repr, DecidableEq

/-- projectResource.ImportState: splits the request ID on commas, requires
exactly 4 fields, then reads the project with the embedded credentials and
stores retention_days = 0 (write-only default). -/
def projectImportState (reqID : String) (getProjectAt : ProjectReadOracle) :
    ImportOutcome :=
  let importParts := goSplitComma reqID
  if importParts.length ≠ 4 then
    { diags := [⟨Severity.error, "Invalid import format",
        "Import ID must be in format: project_id,organization_id,organization_public_key,organization_private_key"⟩],
      state := none, importedID := none, calls := [] }
  else
    let projectID := importParts.getD 0 ""
    let organizationID := importParts.getD 1 ""
    let organizationPublicKey := importParts.getD 2 ""
    let organizationPrivateKey := importParts.getD 3 ""
    match getProjectAt organizationPublicKey organizationPrivateKey projectID with
    | .error e =>
        { diags := [⟨Severity.error, "Error importing project",
            "Could not read project " ++ projectID ++ ": " ++ e⟩],
          state := none, importedID := none,
          calls := [(organizationPublicKey, organizationPrivateKey, projectID)] }
    | .ok project =>
      let metadataMap := if project.metadata.length > 0 then some project.metadata else none
      { diags := [],
        state := some
          { id := project.id, name := project.name,
            retentionDays := 0, metadata := metadataMap,
            organizationID := organizationID,
            orgPublicKey := organizationPublicKey,
            orgPrivateKey := organizationPrivateKey },
        importedID := some projectID,
        calls := [(organizationPublicKey, organizationPrivateKey, projectID)] }

/-! ## Organization resource adapter (organizationResource) -/

/-- Remote organization entity returned by AdminClient.GetOrganization. -/
structure Organization where
  id : String
  name : String
  metadata : List (String × String)
deriving Repr, DecidableEq

structure OrgReadOutcome where
  diags : List Diag
  state : Option OrganizationModel
  removed : Bool
deriving Repr, DecidableEq

/-- organizationResource.Read, given the result of
AdminClient.GetOrganization: any failure, including not-found, is surfaced as
a hard error (Read never removes the resource from state); success stores the
remote id, name and metadata (null when empty). -/
def organizationRead (data : OrganizationModel)
    (getOrganization : String → Except String Organization) : OrgReadOutcome :=
  match getOrganization data.id with
  | .error e =>
      { diags := [⟨Severity.error, "Error reading organization", e⟩],
        state := none, removed := false }
  | .ok org =>
    let metadataMap := if org.metadata.length > 0 then some org.metadata else none
    { diags := [],
      state := some { id := org.id, name := org.name, metadata := metadataMap },
      removed := false }

structure OrgDeleteOutcome where
  diags : List Diag
  state : Option OrganizationModel
deriving Repr, DecidableEq

/-- organizationResource.Delete, given the result of
AdminClient.DeleteOrganization: the "existing projects" failure is downgraded
to a warning and the record is still cleared; any other failure is a hard
error and the record is left untouched. -/
def organizationDelete (_data : OrganizationModel)
    (deleteResult : Except String Unit) : OrgDeleteOutcome :=
  match deleteResult with
  | .error e =>
    if containsSubstring e "Cannot delete organization with existing projects" then
      { diags := [⟨Severity.warning, "Organization deletion skipped",
          "Organization still has existing projects. This is expected during test cleanup - the Docker environment cleanup will handle resource removal. Error: " ++ e⟩],
        state := some { id := "", name := "", metadata := none } }
    else
      { diags := [⟨Severity.error, "Error deleting organization", e⟩], state := none }
  | .ok _ =>
      { diags := [], state := some { id := "", name := "", metadata := none } }

/-! ## Claim theorems -/

/-- C3: Project Read re-emits the previously known retention_days from the
durable record instead of the remote's value: for any prior record and any
successful remote read response, the refreshed record's retention_days equals
the prior record's (in particular 30 is preserved against a remote 0). -/
theorem C3_project_read_preserves_retention (data : ProjectModel)
    (oracle : ProjectReadOracle) (project : Project)
    (hget : oracle data.orgPublicKey data.orgPrivateKey data.id = Except.ok project) :
    ∃ s, (projectRead data oracle).state = some s ∧
      s.retentionDays = data.retentionDays := by
  simp only [projectRead, hget]
  exact ⟨_, rfl, rfl⟩

/-- Witness for C3: prior retention_days 30, remote returns 0, refreshed
record keeps 30. -/
theorem C3_witness :
    ∃ s, (projectRead
      { id := "p1", name := "n", retentionDays := 30, metadata := none,
        organizationID := "org1", orgPublicKey := "pk", orgPrivateKey := "sk" }
      (fun _ _ _ => Except.ok
        { id := "p1", name := "n", retentionDays := 0, metadata := [] })).state = some s ∧
    s.retentionDays = 30 :=
  C3_project_read_preserves_retention _ _
    { id := "p1", name := "n", retentionDays := 0, metadata := [] } rfl

/-- C5: membership delete treats a success=false remote response as success
iff the lowercased message contains "deleted" or "removed"; success=true is
always success; any surfaced error is exactly the wrapped message, which
includes the remote message verbatim. -/
theorem C5_remove_member_tolerance (membershipID : String)
    (resp : RemoveMemberResponse) :
    (resp.success = false →
      (clientRemoveMember membershipID resp = Except.ok () ↔
        (containsSubstring (strToLower resp.message) "deleted" = true ∨
         containsSubstring (strToLower resp.message) "removed" = true))) ∧
    (resp.success = true → clientRemoveMember membershipID resp = Except.ok ()) ∧
    (∀ e, clientRemoveMember membershipID resp = Except.error e →
      e = "failed to remove member with ID " ++ membershipID ++ ": " ++ resp.message) := by
  obtain ⟨s, msg⟩ := resp
  cases s <;>
    by_cases h1 : containsSubstring (strToLower msg) "deleted" = true <;>
      by_cases h2 : containsSubstring (strToLower msg) "removed" = true <;>
        simp_all [clientRemoveMember]

/-- Witness for C5: the response {success: false, message: "Member removed
successfully"} surfaces no error. -/
theorem C5_witness :
    clientRemoveMember "u-1"
      { success := false, message := "Member removed successfully" } = Except.ok () :=
  ((C5_remove_member_tolerance "u-1"
      { success := false, message := "Member removed successfully" }).1 rfl).mpr
    (Or.inr (by decide))

/-- C6: organization Delete downgrades the "Cannot delete organization with
existing projects" failure to a single warning and still clears the durable
record; any other delete failure is a hard error and the record is not
cleared. -/
theorem C6_org_delete_warning (data : OrganizationModel) (e : String) :
    (containsSubstring e "Cannot delete organization with existing projects" = true →
      (organizationDelete data (Except.error e)).state =
        some { id := "", name := "", metadata := none } ∧
      (organizationDelete data (Except.error e)).diags.all
        (fun d => d.severity == Severity.warning) = true ∧
      (organizationDelete data (Except.error e)).diags ≠ []) ∧
    (containsSubstring e "Cannot delete organization with existing projects" = false →
      (organizationDelete data (Except.error e)).state = none ∧
      (organizationDelete data (Except.error e)).diags =
        [⟨Severity.error, "Error deleting organization", e⟩]) := by
  by_cases h : containsSubstring e "Cannot delete organization with existing projects" = true <;>
    simp_all [organizationDelete]

/-- Witness for C6: a delete failure whose message contains the sentinel
substring yields a warning-only diagnostic list and a cleared record. -/
theorem C6_witness :
    (organizationDelete { id := "org-123", name := "Acme", metadata := none }
      (Except.error "Cannot delete organization with existing projects")).state =
        some { id := "", name := "", metadata := none } ∧
    (organizationDelete { id := "org-123", name := "Acme", metadata := none }
      (Except.error "Cannot delete organization with existing projects")).diags.all
        (fun d => d.severity == Severity.warning) = true :=
  ⟨((C6_org_delete_warning _ _).1 (by decide)).1,
   ((C6_org_delete_warning { id := "org-123", name := "Acme", metadata := none }
      "Cannot delete organization with existing projects").1 (by decide)).2.1⟩

/-- C9: membership Create and Update with a role outside
{OWNER, ADMIN, MEMBER, VIEWER} fail locally with a diagnostic naming the
invalid value and the full allowed set, and make no remote call. -/
theorem C9_invalid_role_local (plan state0 : MembershipModel) (client : OrgClient)
    (hrole : validRoles.contains plan.role = false) :
    membershipCreate plan client =
      { diags := [roleDiag plan.role], state := none, calls := [] } ∧
    membershipUpdate plan state0 client =
      { diags := [roleDiag plan.role], state := none, calls := [] } ∧
    roleDiag plan.role = ⟨Severity.error, "Invalid Role",
      "Role must be one of: OWNER, ADMIN, MEMBER, VIEWER. Got: " ++ plan.role⟩ := by
  have h : plan.role ∉ validRoles := by simpa using hrole
  refine ⟨?_, ?_, rfl⟩ <;> simp [membershipCreate, membershipUpdate, h]

/-- A client oracle whose every response is an error; used by witnesses to
show no-call / failure paths at concrete inputs. -/
def stubOrgClient : OrgClient :=
  { listMemberships := fun _ => Except.error "stub"
    createSCIMUser := fun _ => Except.error "stub"
    updateMembership := fun _ _ => Except.error "stub"
    getMembership := fun _ => Except.error "stub"
    removeMember := fun _ => Except.error "stub" }

/-- Witness for C9: role "SUPERADMIN" is rejected locally with an empty call
trace on Create. -/
theorem C9_witness :
    validRoles.contains "SUPERADMIN" = false ∧
    membershipCreate
      { id := "", email := "a@b", role := "SUPERADMIN", status := "", userID := "",
        username := "", orgPublicKey := "pk", orgPrivateKey := "sk" } stubOrgClient =
      { diags := [roleDiag "SUPERADMIN"], state := none, calls := [] } :=
  ⟨by decide,
   (C9_invalid_role_local
      { id := "", email := "a@b", role := "SUPERADMIN", status := "", userID := "",
        username := "", orgPublicKey := "pk", orgPrivateKey := "sk" }
      { id := "", email := "a@b", role := "SUPERADMIN", status := "", userID := "",
        username := "", orgPublicKey := "pk", orgPrivateKey := "sk" }
      stubOrgClient (by decide)).1⟩

/-- C4: Project ImportState with an identifier that does not split into
exactly 4 comma-separated fields fails with summary exactly
"Invalid import format" and makes zero remote calls; with exactly 4 fields it
issues one read with the embedded credentials and, on success, stores
retention_days = 0 with those credentials. -/
theorem C4_project_import_format (reqID : String) (oracle : ProjectReadOracle) :
    ((goSplitComma reqID).length ≠ 4 →
      projectImportState reqID oracle =
        { diags := [⟨Severity.error, "Invalid import format",
            "Import ID must be in format: project_id,organization_id,organization_public_key,organization_private_key"⟩],
          state := none, importedID := none, calls := [] }) ∧
    ((goSplitComma reqID).length = 4 →
      (projectImportState reqID oracle).calls =
        [((goSplitComma reqID).getD 2 "", (goSplitComma reqID).getD 3 "",
          (goSplitComma reqID).getD 0 "")] ∧
      ∀ project,
        oracle ((goSplitComma reqID).getD 2 "") ((goSplitComma reqID).getD 3 "")
            ((goSplitComma reqID).getD 0 "") = Except.ok project →
        ∃ s, (projectImportState reqID oracle).state = some s ∧
          s.retentionDays = 0 ∧
          s.orgPublicKey = (goSplitComma reqID).getD 2 "" ∧
          s.orgPrivateKey = (goSplitComma reqID).getD 3 "") := by
  constructor
  · intro hlen
    simp [projectImportState, hlen]
  · intro hlen
    have hne : ¬ (goSplitComma reqID).length ≠ 4 := fun hc => hc hlen
    refine ⟨?_, ?_⟩
    · simp only [projectImportState, if_neg hne]
      rcases h : oracle ((goSplitComma reqID).getD 2 "") ((goSplitComma reqID).getD 3 "")
          ((goSplitComma reqID).getD 0 "") with e | p <;> rfl
    · intro project hok
      simp only [projectImportState, if_neg hne]
      rw [hok]
      exact ⟨_, rfl, rfl, rfl, rfl⟩

/-- Witness for C4: a 2-field identifier is rejected with no calls; the
4-field identifier "p1,org1,pk,sk" reads with ("pk", "sk") and stores
retention_days 0. -/
theorem C4_witness :
    projectImportState "p1,org1" (fun _ _ _ =>
      Except.ok { id := "p1", name := "n", retentionDays := 5, metadata := [] }) =
      { diags := [⟨Severity.error, "Invalid import format",
          "Import ID must be in format: project_id,organization_id,organization_public_key,organization_private_key"⟩],
        state := none, importedID := none, calls := [] } ∧
    ((projectImportState "p1,org1,pk,sk" (fun _ _ _ =>
        Except.ok { id := "p1", name := "n", retentionDays := 5, metadata := [] })).calls =
      [("pk", "sk", "p1")] ∧
     ∃ s, (projectImportState "p1,org1,pk,sk" (fun _ _ _ =>
        Except.ok { id := "p1", name := "n", retentionDays := 5, metadata := [] })).state =
          some s ∧ s.retentionDays = 0 ∧ s.orgPublicKey = "pk" ∧ s.orgPrivateKey = "sk") :=
  ⟨(C4_project_import_format "p1,org1" _).1 (by decide),
   ⟨((C4_project_import_format "p1,org1,pk,sk" _).2 (by decide)).1,
    ((C4_project_import_format "p1,org1,pk,sk" _).2 (by decide)).2
      { id := "p1", name := "n", retentionDays := 5, metadata := [] } rfl⟩⟩

/-- C2 counterexample: project Read, given a remote not-found ("cannot find
project with ID p1"), surfaces a hard error and does not drop the resource
from tracked state — contradicting the claim that every resource kind's Read
signals "resource absent" on remote not-found. -/
theorem C2_counterexample :
    (projectRead
      { id := "p1", name := "n", retentionDays := 30, metadata := none,
        organizationID := "org1", orgPublicKey := "pk", orgPrivateKey := "sk" }
      (fun _ _ pid => clientGetProject [] pid)).removed = false ∧
    (projectRead
      { id := "p1", name := "n", retentionDays := 30, metadata := none,
        organizationID := "org1", orgPublicKey := "pk", orgPrivateKey := "sk" }
      (fun _ _ pid => clientGetProject [] pid)).diags =
      [⟨Severity.error, "Error reading project", "cannot find project with ID p1"⟩] := by
  constructor <;> rfl

/-- C2 (amended): membership Read signals "resource absent" on a remote
not-found ("cannot find membership" error), dropping the record with no
diagnostics; project Read and organization Read do not — each surfaces every
remote read failure, including not-found, as a hard error without dropping
the record. -/
theorem C2_amended_not_found (st : MembershipModel) (client : OrgClient)
    (data : ProjectModel) (oracle : ProjectReadOracle)
    (orgData : OrganizationModel)
    (getOrganization : String → Except String Organization) (e1 e2 e3 : String) :
    (client.getMembership st.id = Except.error e1 →
      containsSubstring e1 "cannot find membership" = true →
      (membershipRead st client).removed = true ∧ (membershipRead st client).diags = []) ∧
    (oracle data.orgPublicKey data.orgPrivateKey data.id = Except.error e2 →
      (projectRead data oracle).removed = false ∧
      (projectRead data oracle).diags = [⟨Severity.error, "Error reading project", e2⟩]) ∧
    (getOrganization orgData.id = Except.error e3 →
      (organizationRead orgData getOrganization).removed = false ∧
      (organizationRead orgData getOrganization).diags =
        [⟨Severity.error, "Error reading organization", e3⟩]) := by
  refine ⟨?_, ?_, ?_⟩
  · intro hget hsub
    simp [membershipRead, hget, hsub]
  · intro hget
    simp [projectRead, hget]
  · intro hget
    simp [organizationRead, hget]

/-- Witness for C2 (amended): concrete not-found responses on all three
paths: membership Read drops the record, project and organization Read do
not. -/
theorem C2_amended_witness :
    (membershipRead
      { id := "m1", email := "a@b", role := "MEMBER", status := "active",
        userID := "u-1", username := "a", orgPublicKey := "pk", orgPrivateKey := "sk" }
      { stubOrgClient with
        getMembership := fun _ => Except.error "cannot find membership with ID m1" }).removed =
      true ∧
    (projectRead
      { id := "p1", name := "n", retentionDays := 30, metadata := none,
        organizationID := "org1", orgPublicKey := "pk", orgPrivateKey := "sk" }
      (fun _ _ pid => clientGetProject [] pid)).removed = false ∧
    (organizationRead { id := "org-1", name := "Acme", metadata := none }
      (fun _ => Except.error "organization not found")).removed = false :=
  ⟨((C2_amended_not_found
      { id := "m1", email := "a@b", role := "MEMBER", status := "active",
        userID := "u-1", username := "a", orgPublicKey := "pk", orgPrivateKey := "sk" }
      { stubOrgClient with
        getMembership := fun _ => Except.error "cannot find membership with ID m1" }
      { id := "p1", name := "n", retentionDays := 30, metadata := none,
        organizationID := "org1", orgPublicKey := "pk", orgPrivateKey := "sk" }
      (fun _ _ pid => clientGetProject [] pid)
      { id := "org-1", name := "Acme", metadata := none }
      (fun _ => Except.error "organization not found")
      "cannot find membership with ID m1" "cannot find project with ID p1"
      "organization not found").1
      rfl (by decide)).1,
   ((C2_amended_not_found
      { id := "m1", email := "a@b", role := "MEMBER", status := "active",
        userID := "u-1", username := "a", orgPublicKey := "pk", orgPrivateKey := "sk" }
      { stubOrgClient with
        getMembership := fun _ => Except.error "cannot find membership with ID m1" }
      { id := "p1", name := "n", retentionDays := 30, metadata := none,
        organizationID := "org1", orgPublicKey := "pk", orgPrivateKey := "sk" }
      (fun _ _ pid => clientGetProject [] pid)
      { id := "org-1", name := "Acme", metadata := none }
      (fun _ => Except.error "organization not found")
      "cannot find membership with ID m1" "cannot find project with ID p1"
      "organization not found").2.1
      rfl).1,
   ((C2_amended_not_found
      { id := "m1", email := "a@b", role := "MEMBER", status := "active",
        userID := "u-1", username := "a", orgPublicKey := "pk", orgPrivateKey := "sk" }
      { stubOrgClient with
        getMembership := fun _ => Except.error "cannot find membership with ID m1" }
      { id := "p1", name := "n", retentionDays := 30, metadata := none,
        organizationID := "org1", orgPublicKey := "pk", orgPrivateKey := "sk" }
      (fun _ _ pid => clientGetProject [] pid)
      { id := "org-1", name := "Acme", metadata := none }
      (fun _ => Except.error "organization not found")
      "cannot find membership with ID m1" "cannot find project with ID p1"
      "organization not found").2.2
      rfl).1⟩

/-- C1: membership Create for an email that already has a membership in the
organization (the initial list finds a match) makes no SCIM user-creation
call and exactly one UpdateMembership call, and — for any client whose
role-update responses echo the requested role — the stored record's role
equals the declared role. -/
theorem C1_existing_email_single_update (plan : MembershipModel) (client : OrgClient)
    (ms : List OrganizationMembership) (m resp : OrganizationMembership)
    (hrole : validRoles.contains plan.role = true)
    (hlist : client.listMemberships 0 = Except.ok ms)
    (hfind : ms.find? (fun x => x.email == plan.email) = some m)
    (hupd : client.updateMembership m.id
      { userID := m.userID, email := "", role := plan.role } = Except.ok resp)
    (hecho : ∀ mid req r, client.updateMembership mid req = Except.ok r → r.role = req.role) :
    (membershipCreate plan client).calls.countP isSCIMCall = 0 ∧
    (membershipCreate plan client).calls.countP isUpdateCall = 1 ∧
    ∃ s, (membershipCreate plan client).state = some s ∧ s.role = plan.role := by
  have hresp : resp.role = plan.role := hecho _ _ _ hupd
  simp only [membershipCreate, hrole, Bool.not_true, Bool.false_eq_true, if_false, hlist,
    hfind, hupd]
  refine ⟨rfl, rfl, ⟨_, rfl, hresp⟩⟩

/-- Witness for C1: a client already holding a membership for the email, and
echoing requested roles, yields exactly one update call and role "MEMBER". -/
theorem C1_witness :
    (membershipCreate
      { id := "", email := "a@b", role := "MEMBER", status := "", userID := "",
        username := "", orgPublicKey := "pk", orgPrivateKey := "sk" }
      { stubOrgClient with
        listMemberships := fun _ => Except.ok
          [{ id := "mem-1", email := "a@b", role := "VIEWER", status := "active",
             userID := "u-1", username := "a" }]
        updateMembership := fun _ req => Except.ok
          { id := "mem-1", email := "a@b", role := req.role, status := "active",
            userID := "u-1", username := "a" } }).calls.countP isSCIMCall = 0 ∧
    (membershipCreate
      { id := "", email := "a@b", role := "MEMBER", status := "", userID := "",
        username := "", orgPublicKey := "pk", orgPrivateKey := "sk" }
      { stubOrgClient with
        listMemberships := fun _ => Except.ok
          [{ id := "mem-1", email := "a@b", role := "VIEWER", status := "active",
             userID := "u-1", username := "a" }]
        updateMembership := fun _ req => Except.ok
          { id := "mem-1", email := "a@b", role := req.role, status := "active",
            userID := "u-1", username := "a" } }).calls.countP isUpdateCall = 1 ∧
    ∃ s, (membershipCreate
      { id := "", email := "a@b", role := "MEMBER", status := "", userID := "",
        username := "", orgPublicKey := "pk", orgPrivateKey := "sk" }
      { stubOrgClient with
        listMemberships := fun _ => Except.ok
          [{ id := "mem-1", email := "a@b", role := "VIEWER", status := "active",
             userID := "u-1", username := "a" }]
        updateMembership := fun _ req => Except.ok
          { id := "mem-1", email := "a@b", role := req.role, status := "active",
            userID := "u-1", username := "a" } }).state = some s ∧ s.role = "MEMBER" :=
  C1_existing_email_single_update _ _
    [{ id := "mem-1", email := "a@b", role := "VIEWER", status := "active",
       userID := "u-1", username := "a" }]
    { id := "mem-1", email := "a@b", role := "VIEWER", status := "active",
      userID := "u-1", username := "a" }
    { id := "mem-1", email := "a@b", role := "MEMBER", status := "active",
      userID := "u-1", username := "a" }
    (by decide) rfl (by decide) rfl
    (fun _ req r h => by cases h; rfl)

/-- C7: every membership operation that stores a durable record (Create in
both branches, Read, Update) resolves the stored identifier as the remote
membership's id when non-empty, else its userID. -/
theorem C7_fallback_id_resolution (plan state0 : MembershipModel) (client : OrgClient) :
    (∀ ms m resp,
      validRoles.contains plan.role = true →
      client.listMemberships 0 = Except.ok ms →
      ms.find? (fun x => x.email == plan.email) = some m →
      client.updateMembership m.id
        { userID := m.userID, email := "", role := plan.role } = Except.ok resp →
      ∃ s, (membershipCreate plan client).state = some s ∧
        s.id = (if resp.id == "" then resp.userID else resp.id)) ∧
    (∀ ms u ms2 nm resp,
      validRoles.contains plan.role = true →
      client.listMemberships 0 = Except.ok ms →
      ms.find? (fun x => x.email == plan.email) = none →
      client.createSCIMUser (scimRequestFor plan.email) = Except.ok u →
      client.listMemberships 1 = Except.ok ms2 →
      ms2.find? (fun x => x.userID == u.id) = some nm →
      client.updateMembership nm.id
        { userID := u.id, email := "", role := plan.role } = Except.ok resp →
      ∃ s, (membershipCreate plan client).state = some s ∧
        s.id = (if resp.id == "" then resp.userID else resp.id)) ∧
    (∀ resp,
      client.getMembership state0.id = Except.ok resp →
      ∃ s, (membershipRead state0 client).state = some s ∧
        s.id = (if resp.id != "" then resp.id else resp.userID)) ∧
    (∀ resp,
      validRoles.contains plan.role = true →
      client.updateMembership state0.id (membershipUpdateRequest plan.role) = Except.ok resp →
      ∃ s, (membershipUpdate plan state0 client).state = some s ∧
        s.id = (if resp.id == "" then resp.userID else resp.id)) := by
  refine ⟨?_, ?_, ?_, ?_⟩
  · intro ms m resp hrole hlist hfind hupd
    simp only [membershipCreate, hrole, Bool.not_true, Bool.false_eq_true, if_false,
      hlist, hfind, hupd]
    exact ⟨_, rfl, rfl⟩
  · intro ms u ms2 nm resp hrole hlist hfind hscim hlist2 hfind2 hupd
    simp only [membershipCreate, hrole, Bool.not_true, Bool.false_eq_true, if_false,
      hlist, hfind, hscim, hlist2, hfind2, hupd]
    exact ⟨_, rfl, rfl⟩
  · intro resp hget
    simp only [membershipRead, hget]
    exact ⟨_, rfl, rfl⟩
  · intro resp hrole hupd
    simp only [membershipUpdate, hrole, Bool.not_true, Bool.false_eq_true, if_false, hupd]
    exact ⟨_, rfl, rfl⟩

/-- Witness for C7: a Read whose remote response has id empty and userID
"u-42" stores identifier "u-42". -/
theorem C7_witness :
    ∃ s, (membershipRead
      { id := "m1", email := "a@b", role := "MEMBER", status := "active",
        userID := "u-42", username := "a", orgPublicKey := "pk", orgPrivateKey := "sk" }
      { stubOrgClient with
        getMembership := fun _ => Except.ok
          { id := "", email := "a@b", role := "MEMBER", status := "active",
            userID := "u-42", username := "a" } }).state = some s ∧
      s.id = "u-42" :=
  (C7_fallback_id_resolution
    { id := "m1", email := "a@b", role := "MEMBER", status := "active",
      userID := "u-42", username := "a", orgPublicKey := "pk", orgPrivateKey := "sk" }
    { id := "m1", email := "a@b", role := "MEMBER", status := "active",
      userID := "u-42", username := "a", orgPublicKey := "pk", orgPrivateKey := "sk" }
    { stubOrgClient with
      getMembership := fun _ => Except.ok
        { id := "", email := "a@b", role := "MEMBER", status := "active",
          userID := "u-42", username := "a" } }).2.2.1
    { id := "", email := "a@b", role := "MEMBER", status := "active",
      userID := "u-42", username := "a" } rfl

/-- C8: membership Update sends a role-only request (no userId, no email);
the client-level UpdateMembership re-resolves the current membership by an
extra list lookup before the PUT, so whenever the listed membership carries a
non-empty userID the wire request's userId is that non-empty userID while its
role is the declared role. The resource-level Update issues exactly that one
interface call. -/
theorem C8_update_reresolves_user (plan state0 : MembershipModel) (client : OrgClient)
    (ms : List OrganizationMembership) (m : OrganizationMembership)
    (putResp : UpdateMembershipRequest → Except String OrganizationMembership)
    (hrole : validRoles.contains plan.role = true)
    (hfind : ms.find? (fun x => x.id == state0.id || x.userID == state0.id) = some m)
    (hu : m.userID ≠ "") :
    (membershipUpdateRequest plan.role).userID = "" ∧
    (membershipUpdateRequest plan.role).email = "" ∧
    (membershipUpdate plan state0 client).calls =
      [ApiCall.updateMembership state0.id (membershipUpdateRequest plan.role)] ∧
    ∃ wire,
      (clientUpdateMembership (Except.ok ms) putResp state0.id
        (membershipUpdateRequest plan.role)).2 = some wire ∧
      wire.userID = m.userID ∧ wire.userID ≠ "" ∧
      wire.role = plan.role ∧ wire.email = "" := by
  refine ⟨rfl, rfl, ?_, ?_⟩
  · have hmem : plan.role ∈ validRoles := by simpa using hrole
    rcases h : client.updateMembership state0.id (membershipUpdateRequest plan.role)
        with e | mm <;>
      simp [membershipUpdate, hmem, h]
  · have hget : clientGetMembershipFrom ms state0.id = Except.ok m := by
      simp [clientGetMembershipFrom, hfind]
    rcases hp : putResp { userID := m.userID, email := "", role := plan.role }
        with e | r <;>
      · simp only [clientUpdateMembership, hget, membershipUpdateRequest]
        simp only [beq_self_eq_true, if_pos, hp]
        exact ⟨_, rfl, rfl, hu, rfl, rfl⟩

/-- Witness for C8: with an adapter-supplied empty userId, the wire request
carries the re-resolved non-empty userID "u-7" and the declared role. -/
theorem C8_witness :
    ∃ wire,
      (clientUpdateMembership
        (Except.ok [{ id := "m1", email := "a@b", role := "VIEWER", status := "active",
                      userID := "u-7", username := "a" }])
        (fun _ => Except.error "put failed") "m1"
        (membershipUpdateRequest "ADMIN")).2 = some wire ∧
      wire.userID = "u-7" ∧ wire.userID ≠ "" ∧ wire.role = "ADMIN" ∧ wire.email = "" :=
  (C8_update_reresolves_user
    { id := "m1", email := "a@b", role := "ADMIN", status := "active",
      userID := "u-7", username := "a", orgPublicKey := "pk", orgPrivateKey := "sk" }
    { id := "m1", email := "a@b", role := "VIEWER", status := "active",
      userID := "u-7", username := "a", orgPublicKey := "pk", orgPrivateKey := "sk" }
    stubOrgClient
    [{ id := "m1", email := "a@b", role := "VIEWER", status := "active",
       userID := "u-7", username := "a" }]
    { id := "m1", email := "a@b", role := "VIEWER", status := "active",
      userID := "u-7", username := "a" }
    (fun _ => Except.error "put failed")
    (by decide) (by decide) (by decide)).2.2.2

/-- C10: membership Create is atomic on failure — if any of its remote calls
fails (initial list, SCIM user creation, the re-list after user creation
including the no-match case, or the role update in either branch), Create
emits an error diagnostic and stores no state. -/
theorem C10_create_atomic_on_failure (plan : MembershipModel) (client : OrgClient)
    (hrole : validRoles.contains plan.role = true)
    (hfail :
      (∃ e, client.listMemberships 0 = Except.error e) ∨
      (∃ ms, client.listMemberships 0 = Except.ok ms ∧
        ms.find? (fun x => x.email == plan.email) = none ∧
        ((∃ e, client.createSCIMUser (scimRequestFor plan.email) = Except.error e) ∨
         (∃ u, client.createSCIMUser (scimRequestFor plan.email) = Except.ok u ∧
           ((∃ e, client.listMemberships 1 = Except.error e) ∨
            (∃ ms2, client.listMemberships 1 = Except.ok ms2 ∧
              (ms2.find? (fun x => x.userID == u.id) = none ∨
               (∃ nm, ms2.find? (fun x => x.userID == u.id) = some nm ∧
                 ∃ e, client.updateMembership nm.id
                   { userID := u.id, email := "", role := plan.role } =
                     Except.error e))))))) ∨
      (∃ ms m, client.listMemberships 0 = Except.ok ms ∧
        ms.find? (fun x => x.email == plan.email) = some m ∧
        ∃ e, client.updateMembership m.id
          { userID := m.userID, email := "", role := plan.role } = Except.error e)) :
    (membershipCreate plan client).state = none ∧
    (membershipCreate plan client).diags.any
      (fun d => d.severity == Severity.error) = true := by
  rcases hfail with ⟨e, h1⟩ | ⟨ms, h1, h2, hrest⟩ | ⟨ms, m, h1, h2, e, h3⟩
  · simp only [membershipCreate, hrole, Bool.not_true, Bool.false_eq_true, if_false, h1]
    exact ⟨trivial, by simp⟩
  · rcases hrest with ⟨e, h3⟩ | ⟨u, h3, hrest2⟩
    · simp only [membershipCreate, hrole, Bool.not_true, Bool.false_eq_true, if_false,
        h1, h2, h3]
      exact ⟨trivial, by simp⟩
    · rcases hrest2 with ⟨e, h4⟩ | ⟨ms2, h4, hrest3⟩
      · simp only [membershipCreate, hrole, Bool.not_true, Bool.false_eq_true, if_false,
          h1, h2, h3, h4]
        exact ⟨trivial, by simp⟩
      · rcases hrest3 with h5 | ⟨nm, h5, e, h6⟩
        · simp only [membershipCreate, hrole, Bool.not_true, Bool.false_eq_true, if_false,
            h1, h2, h3, h4, h5]
          exact ⟨trivial, by simp⟩
        · simp only [membershipCreate, hrole, Bool.not_true, Bool.false_eq_true, if_false,
            h1, h2, h3, h4, h5, h6]
          exact ⟨trivial, by simp⟩
  · simp only [membershipCreate, hrole, Bool.not_true, Bool.false_eq_true, if_false,
      h1, h2, h3]
    exact ⟨trivial, by simp⟩

/-- Witness for C10: a failing initial membership list yields an error and no
stored state. -/
theorem C10_witness :
    (membershipCreate
      { id := "", email := "a@b", role := "ADMIN", status := "", userID := "",
        username := "", orgPublicKey := "pk", orgPrivateKey := "sk" }
      stubOrgClient).state = none ∧
    (membershipCreate
      { id := "", email := "a@b", role := "ADMIN", status := "", userID := "",
        username := "", orgPublicKey := "pk", orgPrivateKey := "sk" }
      stubOrgClient).diags.any (fun d => d.severity == Severity.error) = true :=
  C10_create_atomic_on_failure
    { id := "", email := "a@b", role := "ADMIN", status := "", userID := "",
      username := "", orgPublicKey := "pk", orgPrivateKey := "sk" }
    stubOrgClient (by decide) (Or.inl ⟨"stub", rfl⟩)
